import Mathlib

/-!
Shallow embedding of `main.py` (word-learning video generation pipeline)
and of `image_gen/image_gen.py`, together with theorems settling the
spec claims about the pipeline.

External collaborators (LLM chat API, image generation, TTS, pydub,
moviepy, LibreOffice/pdftoppm subprocesses, `json.loads`) are opaque:
their observable outcomes (parse result of the LLM response, audio-clip
durations, subprocess exit codes) are explicit parameters, and their
effects (files created, commands run) are recorded in an explicit
filesystem/event state.  Machine code translated here is the repository
glue logic itself: control flow, file bookkeeping, batching and error
handling.
-/

namespace WordVideo

/-- Mirrors `output_dir = os.getcwd() + "/output/"` (main.py line 32); the
current working directory is a parameter. -/
def output_dir (cwd : String) : String := cwd ++ "/output/"

/-- Mirrors `cache_dir = os.getcwd() + "/cache/"` (main.py line 33). -/
def cache_dir (cwd : String) : String := cwd ++ "/cache/"

/-- Values the Python `json.loads` can produce. -/
inductive JsonValue where
  | null
  | bool (b : Bool)
  | num (n : Int)
  | str (s : String)
  | arr (elems : List JsonValue)
  | obj (fields : List (String × JsonValue))

/-- Python dict item assignment `d[k] = v` on an insertion-ordered dict:
replace the value at the first occurrence of `k`, else append `(k, v)`. -/
def setField : List (String × JsonValue) → String → JsonValue → List (String × JsonValue)
  | [], k, v => [(k, v)]
  | (k0, v0) :: rest, k, v =>
      if k0 = k then (k0, v) :: rest else (k0, v0) :: setField rest k v

/-- Python dict lookup `d[k]` (first binding wins). -/
def getField : List (String × JsonValue) → String → Option JsonValue
  | [], _ => none
  | (k0, v0) :: rest, k => if k0 = k then some v0 else getField rest k

/-- Whether a JSON value is an object (a Python dict after `json.loads`). -/
def JsonValue.isObj : JsonValue → Bool
  | .obj _ => true
  | _ => false

/-- Outcome of the `try` body of `generate_word_info` (main.py lines 85-88):
`json.loads` followed by the item assignment `word_info["word"] = word`.
`parsed` is the outcome of `json.loads(message.content[0].text)`: `none`
when the response text is not valid JSON (a `JSONDecodeError` escapes).
When the parsed value is not a dict, the item assignment raises a
`TypeError`; both exceptions fall into the bare `except`. -/
def tryBody (word : String) (parsed : Option JsonValue) : Option JsonValue :=
  match parsed with
  | some (JsonValue.obj fields) => some (JsonValue.obj (setField fields "word" (JsonValue.str word)))
  | some _ => none
  | none => none

/-- Embeds `generate_word_info` (main.py lines 43-94) from the `try` block
on: the LLM call itself is opaque, so the raw response text and its
`json.loads` outcome are parameters.  `log` is the list of records so far
appended to `output/failed_words.txt`; the `except` branch appends the
single record `word + " " + responseText` (the trailing newline of the
`file.write` is the record separator) and returns the sentinel `none`.
The function is total: every exception of the `try` body is caught, so no
exception escapes to the caller. -/
def generate_word_info (word responseText : String) (parsed : Option JsonValue)
    (log : List String) : Option JsonValue × List String :=
  match tryBody word parsed with
  | some v => (some v, log)
  | none => (none, log ++ [word ++ " " ++ responseText])

/-- A piece of a pydub `AudioSegment`: an audio clip read from a file, or
inserted silence.  Only durations (in milliseconds) are observable. -/
inductive Chunk where
  | clip (duration : Nat)
  | silence (duration : Nat)

/-- Duration in milliseconds of one chunk. -/
def Chunk.duration : Chunk → Nat
  | .clip d => d
  | .silence d => d

/-- Duration in milliseconds of a concatenation of chunks. -/
def audioDuration (chunks : List Chunk) : Nat := (chunks.map Chunk.duration).sum

/-- Embeds the mixing loop of `combine_mp3s` (main.py lines 236-253) at the
level of audio content: `combined_audio = AudioSegment.empty()`, then for
each input file `combined_audio += audio; combined_audio += pause` where
`pause = AudioSegment.silent(duration=pause_duration)`.  Input clips are
represented by their durations; the call in `generate_audio_file` uses the
default `pause_duration = 2000`. -/
def combine_mp3s (durations : List Nat) (pause_duration : Nat) : List Chunk :=
  durations.foldl (fun acc d => acc ++ [Chunk.clip d, Chunk.silence pause_duration]) []

/-- Zero-padded rendering `f"{n:02d}"` of a natural number. -/
def pad2 (n : Nat) : String :=
  if n < 10 then "0" ++ toString n else toString n

/-- The per-word video path `cache_dir + f"{count+1:02d}_" + word + ".mp4"`
built at main.py line 394, where `count` is the loop counter before the
increment. -/
def videoPathFor (cwd : String) (count : Nat) (word : String) : String :=
  cache_dir cwd ++ pad2 (count + 1) ++ "_" ++ word ++ ".mp4"

/-- The combined-batch output path
`output_dir + f"combined_{count-9}-{count}.mp4"` of main.py line 400,
where `count` is the counter after the increment. -/
def flushName (cwd : String) (count : Nat) : String :=
  output_dir cwd ++ "combined_" ++ toString (count - 9) ++ "-" ++ toString count ++ ".mp4"

/-- State of the `__main__` word loop (main.py lines 382-401): the counter
`count`, the accumulated `video_paths` batch, and the record of every
`combine_videos` invocation made so far (its argument list and output
path). -/
structure LoopState where
  count : Nat
  video_paths : List String
  flushes : List (List String × String)

/-- One iteration of the word loop (main.py lines 393-401) for a word and
the success flag returned by `generate_video_for_word`: compute the video
path from the pre-increment counter, increment `count`, append the path to
the batch only on success, and—whenever the incremented counter is a
multiple of 10—invoke `combine_videos` on the accumulated batch and reset
it. -/
def loopStep (cwd : String) (st : LoopState) (p : String × Bool) : LoopState :=
  let video_path := videoPathFor cwd st.count p.1
  let count := st.count + 1
  let video_paths := if p.2 then st.video_paths ++ [video_path] else st.video_paths
  if count % 10 = 0 then
    ⟨count, [], st.flushes ++ [(video_paths, flushName cwd count)]⟩
  else
    ⟨count, video_paths, st.flushes⟩

/-- The word loop itself, folding `loopStep` over the words paired with
their success flags. -/
def runLoop (cwd : String) (ps : List (String × Bool)) (st : LoopState) : LoopState :=
  ps.foldl (loopStep cwd) st

/-- The video paths of exactly the successful words of a run segment, in
input order, numbering from counter value `c`. -/
def successPaths (cwd : String) : Nat → List (String × Bool) → List String
  | _, [] => []
  | c, p :: rest =>
      (if p.2 then [videoPathFor cwd c p.1] else []) ++ successPaths cwd (c + 1) rest

/-- One slide of a python-pptx presentation, restricted to the content the
source sets in `generate_slide` (main.py lines 171-202): the title text,
the picture handle passed to `add_picture`, and the texts of the two added
text boxes.  Geometry (Inches/Pt positions and sizes) is elided. -/
structure SlideData where
  title : String
  picture : Option Nat
  box1Text : String
  box2Text : String

/-- A python-pptx `Presentation`: its list of slides. -/
structure Presentation where
  slides : List SlideData

/-- Observable external effects of the pipeline, in order of occurrence. -/
inductive Event where
  | imageGenerated (handle : Nat)
  | slideSaved (prs : Presentation) (path : String)
  | ranSoffice (slide_path : String)
  | ranPdftoppm (pdf_path : String)
  | tts (outFile : String)
  | audioExported (outFile : String) (audio : List Chunk)
  | videoWritten (outFile image_path audio_path : String)
  | videosCombined (video_paths : List String) (outFile : String)
  | removed (path : String)

/-- The ambient state threaded through the pipeline: the set of files
present (as an ordered list of paths) and the event history. -/
structure World where
  fs : List String
  events : List Event

/-- Creating (or overwriting) a file: a new path is appended, an existing
path is overwritten in place. -/
def insertFile (f : String) (fs : List String) : List String :=
  if f ∈ fs then fs else fs ++ [f]

/-- `os.remove`: the file is removed from the filesystem and the removal is
recorded. -/
def os_remove (f : String) (w : World) : World :=
  ⟨w.fs.erase f, w.events ++ [Event.removed f]⟩

/-- Python dict access `d[k]` expecting a string value, as every consumer of
the word-info dict performs (`word_info['word']` etc.): a missing key
raises `KeyError`; a non-string value makes the consuming library call
raise.  Either way the exception is unhandled. -/
def dictGetStr (fields : List (String × JsonValue)) (k : String) : Except String String :=
  match getField fields k with
  | some (JsonValue.str s) => Except.ok s
  | some _ => Except.error ("TypeError: non-string value at key " ++ k)
  | none => Except.error ("KeyError: " ++ k)

/-- Embeds `generate_image_from_word_info` (main.py lines 97-158): reads
the `word`, `definition` and `example` entries of the dict to build the
image prompt, then performs opaque LLM/image-service calls producing image
bytes (`handle` stands for the returned `BytesIO`).  No file is touched. -/
def generate_image_from_word_info (fields : List (String × JsonValue)) (handle : Nat)
    (w : World) : Except String (Nat × World) := do
  let _ ← dictGetStr fields "word"
  let _ ← dictGetStr fields "definition"
  let _ ← dictGetStr fields "example"
  Except.ok (handle, ⟨w.fs, w.events ++ [Event.imageGenerated handle]⟩)

/-- The presentation built by `generate_slide` (main.py lines 171-202):
`Presentation()` starts with no slide, `add_slide` appends one, then the
title text, the picture and the two text boxes are set on that slide. -/
def buildSlidePresentation (word definition exampleText : String) (picture : Nat) : Presentation :=
  let prs : Presentation := ⟨[]⟩
  let slide : SlideData := ⟨"", none, "", ""⟩
  let slide := { slide with title := word }
  let slide := { slide with picture := some picture }
  let slide := { slide with box1Text := definition }
  let slide := { slide with box2Text := exampleText }
  ⟨prs.slides ++ [slide]⟩

/-- Embeds `generate_slide` (main.py lines 160-208): builds the one-slide
presentation from the dict entries and the image data, saves it to the
fixed scratch path `cache_dir + 'temp.pptx'` and returns that path. -/
def generate_slide (cwd : String) (fields : List (String × JsonValue)) (image_data : Nat)
    (w : World) : Except String (String × World) := do
  let word ← dictGetStr fields "word"
  let definition ← dictGetStr fields "definition"
  let exampleText ← dictGetStr fields "example"
  let prs := buildSlidePresentation word definition exampleText image_data
  let output_file_path := cache_dir cwd ++ "temp.pptx"
  Except.ok (output_file_path,
    ⟨insertFile output_file_path w.fs, w.events ++ [Event.slideSaved prs output_file_path]⟩)

/-- `subprocess.run(cmd, check=True)`: the command runs, creating
`creates` on success; a non-zero exit status raises
`CalledProcessError`, which no caller handles. -/
def subprocess_run (ev : Event) (creates : String) (exitCode : Nat) (w : World) :
    Except String World :=
  if exitCode = 0 then Except.ok ⟨insertFile creates w.fs, w.events ++ [ev]⟩
  else Except.error "CalledProcessError"

/-- Embeds `convert_slide_to_image` (main.py lines 210-233): run the
LibreOffice converter (producing `cache_dir + 'temp.pdf'`), run `pdftoppm`
(producing `cache_dir + 'temp.png'`), delete the intermediate PDF, and
return the PNG path.  The exit statuses of the two subprocesses are
parameters; `check=True` makes a non-zero status raise. -/
def convert_slide_to_image (cwd slide_path : String) (sofficeExit pdftoppmExit : Nat)
    (w : World) : Except String (String × World) := do
  let pdf_path := cache_dir cwd ++ "temp.pdf"
  let w ← subprocess_run (Event.ranSoffice slide_path) pdf_path sofficeExit w
  let w ← subprocess_run (Event.ranPdftoppm pdf_path) (cache_dir cwd ++ "temp.png") pdftoppmExit w
  let w := os_remove pdf_path w
  Except.ok (cache_dir cwd ++ "temp.png", w)

/-- The filesystem/event side of `combine_mp3s` (main.py line 253): the
mixed audio (built by `combine_mp3s` from the input clip durations) is
exported to `output_path`. -/
def combine_mp3s_export (durations : List Nat) (output_path : String) (pause_duration : Nat)
    (w : World) : World :=
  ⟨insertFile output_path w.fs,
   w.events ++ [Event.audioExported output_path (combine_mp3s durations pause_duration)]⟩

/-- One TTS call of `generate_audio_file`, streamed to `outFile`. -/
def tts_call (outFile : String) (w : World) : World :=
  ⟨insertFile outFile w.fs, w.events ++ [Event.tts outFile]⟩

/-- Embeds `generate_audio_file` (main.py lines 256-298): three TTS calls
(word, definition, example) to three fixed scratch files, mixing into
`cache_dir + 'combined_audio.mp3'` via `combine_mp3s` with the default
2000 ms pause, then deletion of the three source files.  The durations of
the three synthesized clips are parameters (TTS is opaque). -/
def generate_audio_file (cwd : String) (fields : List (String × JsonValue))
    (wordDur defDur exDur : Nat) (w : World) : Except String (String × World) := do
  let _ ← dictGetStr fields "word"
  let _ ← dictGetStr fields "definition"
  let _ ← dictGetStr fields "example"
  let word_speech_file_path := cache_dir cwd ++ "word_speech.mp3"
  let word_definition_speech_file_path := cache_dir cwd ++ "word_definition_speech.mp3"
  let word_example_speech_file_path := cache_dir cwd ++ "word_example_speech.mp3"
  let w := tts_call word_speech_file_path w
  let w := tts_call word_definition_speech_file_path w
  let w := tts_call word_example_speech_file_path w
  let output_path := cache_dir cwd ++ "combined_audio.mp3"
  let w := combine_mp3s_export [wordDur, defDur, exDur] output_path 2000 w
  let w := os_remove word_speech_file_path w
  let w := os_remove word_definition_speech_file_path w
  let w := os_remove word_example_speech_file_path w
  Except.ok (output_path, w)

/-- Embeds `generate_video_file` (main.py lines 301-314): the still-image
video with the mixed audio is written to `output_path`. -/
def generate_video_file (image_path audio_path output_path : String) (w : World) : World :=
  ⟨insertFile output_path w.fs,
   w.events ++ [Event.videoWritten output_path image_path audio_path]⟩

/-- Embeds `generate_video_for_word` (main.py lines 317-355): word-info
generation, then—only when it did not return the sentinel—image, slide,
rasterization, audio and video stages, then deletion of the slide, image
and audio scratch files.  On sentinel it returns `False` at once, touching
nothing.  Opaque outcomes (LLM parse, image handle, TTS durations,
subprocess exit codes) are parameters. -/
def generate_video_for_word (cwd word responseText : String) (parsed : Option JsonValue)
    (imageHandle wordDur defDur exDur : Nat) (sofficeExit pdftoppmExit : Nat)
    (output_path : String) (log : List String) (w : World) :
    Except String (Bool × List String × World) := do
  match generate_word_info word responseText parsed log with
  | (none, log2) => Except.ok (false, log2, w)
  | (some wordInfoVal, log2) =>
    let fields ← (match wordInfoVal with
                  | JsonValue.obj fs2 => Except.ok fs2
                  | _ => Except.error "TypeError: word_info is not a dict")
    let res1 ← generate_image_from_word_info fields imageHandle w
    let image_data := res1.1
    let w := res1.2
    let res2 ← generate_slide cwd fields image_data w
    let slide_path := res2.1
    let w := res2.2
    let res3 ← convert_slide_to_image cwd slide_path sofficeExit pdftoppmExit w
    let image_path := res3.1
    let w := res3.2
    let res4 ← generate_audio_file cwd fields wordDur defDur exDur w
    let audio_path := res4.1
    let w := res4.2
    let w := generate_video_file image_path audio_path output_path w
    let w := os_remove slide_path w
    let w := os_remove image_path w
    let w := os_remove audio_path w
    Except.ok (true, log2, w)

/-- Embeds `combine_videos` (main.py lines 357-367): loads the listed
videos, concatenates them and writes the combined file; none of the input
files is deleted. -/
def combine_videos (video_paths : List String) (output_path : String) (w : World) : World :=
  ⟨insertFile output_path w.fs, w.events ++ [Event.videosCombined video_paths output_path]⟩

/-- The seven fixed per-word scratch file names under the cache directory
(presentation, intermediate PDF, rasterized image, three speech clips,
mixed audio). -/
def scratchNames (cwd : String) : List String :=
  [cache_dir cwd ++ "temp.pptx", cache_dir cwd ++ "temp.pdf", cache_dir cwd ++ "temp.png",
   cache_dir cwd ++ "word_speech.mp3", cache_dir cwd ++ "word_definition_speech.mp3",
   cache_dir cwd ++ "word_example_speech.mp3", cache_dir cwd ++ "combined_audio.mp3"]

/-- The world after a pipeline run, for inspecting the filesystem of a
successful run (the fallback world is returned on an exception). -/
def worldAfter (r : Except String (Bool × List String × World)) (fallback : World) : World :=
  match r with
  | Except.ok (_, _, w1) => w1
  | Except.error _ => fallback

/-- Whether an `Except` value is a success. -/
def isOkE {ε α : Type} : Except ε α → Bool
  | Except.ok _ => true
  | Except.error _ => false

/-! ### Helper lemmas -/

theorem getField_setField_self (fields : List (String × JsonValue)) (k : String) (v : JsonValue) :
    getField (setField fields k v) k = some v := by
  induction fields with
  | nil => simp [setField, getField]
  | cons p rest ih =>
    by_cases h : p.1 = k
    · simp [setField, getField, h]
    · simp [setField, getField, h, ih]

theorem getField_setField_ne (fields : List (String × JsonValue)) (k k2 : String)
    (v : JsonValue) (h : k2 ≠ k) : getField (setField fields k v) k2 = getField fields k2 := by
  induction fields with
  | nil => simp [setField, getField, Ne.symm h]
  | cons p rest ih =>
    by_cases h1 : p.1 = k
    · subst h1
      simp [setField, getField, Ne.symm h]
    · by_cases h2 : p.1 = k2
      · simp [setField, getField, h1, h2, h]
      · simp [setField, getField, h1, h2, ih]

theorem combine_mp3s_go (p : Nat) (ds : List Nat) (acc : List Chunk) :
    ds.foldl (fun a d => a ++ [Chunk.clip d, Chunk.silence p]) acc
      = acc ++ ds.foldl (fun a d => a ++ [Chunk.clip d, Chunk.silence p]) [] := by
  induction ds generalizing acc with
  | nil => simp
  | cons d rest ih =>
    simp only [List.foldl_cons]
    rw [ih (acc ++ [Chunk.clip d, Chunk.silence p]),
        ih ([] ++ [Chunk.clip d, Chunk.silence p])]
    simp

theorem combine_mp3s_eq_flatMap (p : Nat) (ds : List Nat) :
    combine_mp3s ds p = ds.flatMap (fun d => [Chunk.clip d, Chunk.silence p]) := by
  induction ds with
  | nil => rfl
  | cons d rest ih =>
    show (d :: rest).foldl (fun a d => a ++ [Chunk.clip d, Chunk.silence p]) [] = _
    rw [List.foldl_cons, combine_mp3s_go]
    simp [List.flatMap_cons]
    exact ih

theorem audioDuration_combine_mp3s (p : Nat) (ds : List Nat) :
    audioDuration (combine_mp3s ds p) = ds.sum + p * ds.length := by
  rw [combine_mp3s_eq_flatMap]
  induction ds with
  | nil => rfl
  | cons d rest ih =>
    simp only [List.flatMap_cons, audioDuration, List.map_append, List.sum_append] at ih ⊢
    simp [Chunk.duration, Nat.mul_succ]
    omega

/-! ### Claim C4 -/

/-- C4: for every word `w`, when the LLM response text is not valid JSON
(`json.loads` fails, modelled by `parsed = none`), `generate_word_info`
appends exactly one record to the failure log, consisting of `w`, a space
and the raw response text, and returns the sentinel `none`; the function
is total, so no exception escapes. -/
theorem generate_word_info_invalid_json (w t : String) (log : List String) :
    generate_word_info w t none log = (none, log ++ [w ++ " " ++ t]) ∧
    (generate_word_info w t none log).2.length = log.length + 1 := by
  constructor <;> simp [generate_word_info, tryBody]

/-! ### Claim C5 -/

/-- C5: for every word `w`, when the LLM returns valid JSON that is an
object containing the keys `definition` and `example`,
`generate_word_info` returns the parsed object with the original word
attached: looking up `"word"` in the returned record yields exactly `w`,
and the failure log is untouched. -/
theorem generate_word_info_attaches_word (w t : String)
    (fields : List (String × JsonValue)) (log : List String)
    (hdef : getField fields "definition" ≠ none)
    (hex : getField fields "example" ≠ none) :
    generate_word_info w t (some (JsonValue.obj fields)) log
      = (some (JsonValue.obj (setField fields "word" (JsonValue.str w))), log) ∧
    getField (setField fields "word" (JsonValue.str w)) "word" = some (JsonValue.str w) := by
  exact ⟨by simp [generate_word_info, tryBody], getField_setField_self fields "word" _⟩

/-- Witness for C5 at a concrete two-key object. -/
theorem generate_word_info_attaches_word_witness :
    getField [("definition", JsonValue.str "A red fruit."),
              ("example", JsonValue.str "I ate an apple.")] "definition" ≠ none ∧
    generate_word_info "apple" "resp"
        (some (JsonValue.obj [("definition", JsonValue.str "A red fruit."),
                              ("example", JsonValue.str "I ate an apple.")])) []
      = (some (JsonValue.obj (setField
          [("definition", JsonValue.str "A red fruit."),
           ("example", JsonValue.str "I ate an apple.")] "word" (JsonValue.str "apple"))), []) ∧
    getField (setField [("definition", JsonValue.str "A red fruit."),
                        ("example", JsonValue.str "I ate an apple.")] "word"
              (JsonValue.str "apple")) "word" = some (JsonValue.str "apple") := by
  refine ⟨by simp [getField], ?_⟩
  exact generate_word_info_attaches_word "apple" "resp" _ []
    (by simp [getField]) (by simp [getField])

/-! ### Claim C10 -/

/-- C10: when the LLM response parses as valid JSON that is not a JSON
object (array, string, number, boolean or null), the item assignment
`word_info["word"] = word` raises inside the same `try`, so
`generate_word_info` again appends the `w ++ " " ++ raw` record to the
failure log and returns the sentinel `none`. -/
theorem generate_word_info_nonobject_json (w t : String) (v : JsonValue)
    (log : List String) (h : v.isObj = false) :
    generate_word_info w t (some v) log = (none, log ++ [w ++ " " ++ t]) := by
  cases v <;> simp_all [generate_word_info, tryBody, JsonValue.isObj]

/-- Witness for C10 at a concrete JSON array response. -/
theorem generate_word_info_nonobject_json_witness :
    JsonValue.isObj (JsonValue.arr [JsonValue.num 1]) = false ∧
    generate_word_info "apple" "[1]" (some (JsonValue.arr [JsonValue.num 1])) []
      = (none, [] ++ ["apple" ++ " " ++ "[1]"]) :=
  ⟨rfl, generate_word_info_nonobject_json "apple" "[1]" (JsonValue.arr [JsonValue.num 1]) [] rfl⟩

/-! ### Claim C1 -/

/-- C1 counterexample: for the three clips of durations 1000, 2000 and
3000 ms, the mixed output of `combine_mp3s` with the default 2000 ms pause
does not last `sum + 2 × (n − 1)` seconds: the loop also appends a pause
after the final clip, so the output lasts 12000 ms, not 10000 ms. -/
theorem combine_mp3s_gap_only_claim_false :
    ¬ (audioDuration (combine_mp3s [1000, 2000, 3000] 2000)
        = (1000 + 2000 + 3000) + 2000 * (3 - 1)) := by decide

/-- C1 amended: for every non-empty list of input clips, `combine_mp3s`
with the default 2000 ms pause emits each clip followed by a 2-second
silence—including one after the last clip—so the output duration equals
the sum of the clip durations plus 2 seconds per input, i.e.
`2 × n` seconds of silence for `n` inputs, not `2 × (n − 1)`. -/
theorem combine_mp3s_trailing_silence (ds : List Nat) (h : ds ≠ []) :
    combine_mp3s ds 2000 = ds.flatMap (fun d => [Chunk.clip d, Chunk.silence 2000]) ∧
    audioDuration (combine_mp3s ds 2000) = ds.sum + 2000 * ds.length :=
  ⟨combine_mp3s_eq_flatMap 2000 ds, audioDuration_combine_mp3s 2000 ds⟩

/-! ### Word-loop lemmas (for C2, C3) -/

theorem runLoop_append (cwd : String) (xs ys : List (String × Bool)) (st : LoopState) :
    runLoop cwd (xs ++ ys) st = runLoop cwd ys (runLoop cwd xs st) := by
  simp [runLoop, List.foldl_append]

theorem successPaths_append (cwd : String) (xs ys : List (String × Bool)) (c : Nat) :
    successPaths cwd c (xs ++ ys)
      = successPaths cwd c xs ++ successPaths cwd (c + xs.length) ys := by
  induction xs generalizing c with
  | nil => simp [successPaths]
  | cons p rest ih =>
    show successPaths cwd c (p :: (rest ++ ys)) = _
    simp only [successPaths]
    rw [ih (c + 1), List.length_cons]
    have h2 : c + 1 + rest.length = c + (rest.length + 1) := by omega
    rw [h2, List.append_assoc]

theorem loopStep_no_flush (cwd : String) (st : LoopState) (p : String × Bool)
    (h : (st.count + 1) % 10 ≠ 0) :
    loopStep cwd st p
      = ⟨st.count + 1,
         st.video_paths ++ (if p.2 then [videoPathFor cwd st.count p.1] else []),
         st.flushes⟩ := by
  cases hp : p.2 <;> simp [loopStep, h, hp]

theorem loopStep_flush (cwd : String) (st : LoopState) (p : String × Bool)
    (h : (st.count + 1) % 10 = 0) :
    loopStep cwd st p
      = ⟨st.count + 1, [],
         st.flushes
           ++ [(st.video_paths ++ (if p.2 then [videoPathFor cwd st.count p.1] else []),
                flushName cwd (st.count + 1))]⟩ := by
  cases hp : p.2 <;> simp [loopStep, h, hp]

theorem runLoop_no_flush (cwd : String) (ps : List (String × Bool)) (st : LoopState)
    (h : st.count % 10 + ps.length < 10) :
    runLoop cwd ps st
      = ⟨st.count + ps.length,
         st.video_paths ++ successPaths cwd st.count ps,
         st.flushes⟩ := by
  induction ps generalizing st with
  | nil => simp [runLoop, successPaths]
  | cons p rest ih =>
    have hlen : (p :: rest).length = rest.length + 1 := rfl
    have hni : (st.count + 1) % 10 ≠ 0 := by
      rw [hlen] at h; omega
    have hstep := loopStep_no_flush cwd st p hni
    show runLoop cwd rest (loopStep cwd st p) = _
    rw [hstep]
    have hrec := ih ⟨st.count + 1,
        st.video_paths ++ (if p.2 then [videoPathFor cwd st.count p.1] else []),
        st.flushes⟩ (by simp only [hlen] at h; simp; omega)
    rw [hrec]
    simp only [LoopState.mk.injEq, successPaths, hlen]
    refine ⟨by omega, ?_, trivial⟩
    simp [List.append_assoc]

/-- Running a full 10-word window starting at a counter divisible by 10:
the first nine iterations never flush, the tenth flushes the accumulated
batch (the paths of exactly the successful words of the window, appended
to whatever the batch held on entry) under the window's `flushName`, and
resets the batch. -/
theorem runLoop_ten (cwd : String) (ps : List (String × Bool)) (st : LoopState)
    (hlen : ps.length = 10) (hc : st.count % 10 = 0) :
    runLoop cwd ps st
      = ⟨st.count + 10, [],
         st.flushes
           ++ [(st.video_paths ++ successPaths cwd st.count ps,
                flushName cwd (st.count + 10))]⟩ := by
  rcases List.eq_nil_or_concat ps with hnil | ⟨qs, p, hconcat⟩
  · rw [hnil] at hlen; simp at hlen
  · have hq : ps = qs ++ [p] := by rw [hconcat]; simp [List.concat_eq_append]
    subst hq
    have hq9 : qs.length = 9 := by
      simp [List.length_append] at hlen; omega
    rw [runLoop_append]
    rw [runLoop_no_flush cwd qs st (by rw [hq9]; omega)]
    have hflush : (st.count + qs.length + 1) % 10 = 0 := by rw [hq9]; omega
    show loopStep cwd _ p = _
    rw [loopStep_flush _ _ _ hflush]
    rw [successPaths_append]
    have h10 : st.count + qs.length + 1 = st.count + 10 := by omega
    simp only [LoopState.mk.injEq]
    refine ⟨h10, trivial, ?_⟩
    simp only [successPaths, List.append_nil, h10]
    simp [List.append_assoc]

/-- Whether the paths of the successful words of a segment are empty. -/
theorem successPaths_eq_nil_iff (cwd : String) (ps : List (String × Bool)) (c : Nat) :
    successPaths cwd c ps = [] ↔ ∀ p ∈ ps, p.2 = false := by
  induction ps generalizing c with
  | nil => simp [successPaths]
  | cons p rest ih =>
    cases hp : p.2 <;> simp [successPaths, hp, ih (c + 1)]

/-! ### Claim C2 -/

/-- C2 counterexample: starting at `count = 10` with an empty batch
(the program's initial state) and processing 10 words of which one fails
`generate_video_for_word`, the batch flush still fires at the end of the
window: exactly one `combine_videos` call occurs and its batch holds 9
paths, although only 9 words were successfully processed — the flush is
keyed to attempted words, not successful ones. -/
theorem batch_flush_after_ten_successes_false :
    (([("w1", true), ("w2", true), ("w3", true), ("w4", true), ("w5", true),
        ("w6", true), ("w7", true), ("w8", true), ("w9", true), ("w10", false)]
        : List (String × Bool)).filter (fun p => p.2)).length = 9 ∧
    (runLoop "" [("w1", true), ("w2", true), ("w3", true), ("w4", true), ("w5", true),
        ("w6", true), ("w7", true), ("w8", true), ("w9", true), ("w10", false)]
        ⟨10, [], []⟩).flushes.map (fun f => f.1.length) = [9] := by
  constructor
  · rfl
  · rfl

/-- C2 amended: in the orchestrator's word loop, `combine_videos` is
invoked on the accumulated batch, and the batch is reset, exactly after
every 10 attempted words (whenever the incremented counter reaches a
multiple of 10), not after every 10 successful words; the flushed batch
holds the video paths of exactly the successfully processed words of the
window, which may be fewer than 10. -/
theorem batch_flush_every_ten_attempts (cwd : String) (ps : List (String × Bool))
    (c0 : Nat) (paths0 : List String) (fl0 : List (List String × String))
    (hlen : ps.length = 10) (hc : c0 % 10 = 0) :
    runLoop cwd ps ⟨c0, paths0, fl0⟩
      = ⟨c0 + 10, [],
         fl0 ++ [(paths0 ++ successPaths cwd c0 ps, flushName cwd (c0 + 10))]⟩ :=
  runLoop_ten cwd ps ⟨c0, paths0, fl0⟩ hlen hc

/-- Witness for the amended C2: a concrete 10-word window with one failed
word flushes once, with the successful words' paths. -/
theorem batch_flush_every_ten_attempts_witness :
    (([("w1", true), ("w2", true), ("w3", true), ("w4", true), ("w5", true),
       ("w6", true), ("w7", true), ("w8", true), ("w9", true), ("w10", false)]
       : List (String × Bool)).length = 10) ∧
    runLoop "" [("w1", true), ("w2", true), ("w3", true), ("w4", true), ("w5", true),
        ("w6", true), ("w7", true), ("w8", true), ("w9", true), ("w10", false)]
        ⟨10, [], []⟩
      = ⟨10 + 10, [],
         [] ++ [([] ++ successPaths "" 10
                   [("w1", true), ("w2", true), ("w3", true), ("w4", true), ("w5", true),
                    ("w6", true), ("w7", true), ("w8", true), ("w9", true), ("w10", false)],
                 flushName "" (10 + 10))]⟩ :=
  ⟨rfl, batch_flush_every_ten_attempts "" _ 10 [] [] rfl rfl⟩

/-! ### Claim C3 -/

/-- C3 counterexample: if every word of a 10-word window fails
`WordInfoGenerator` (so `generate_video_for_word` returns `False` ten
times), the flush at the end of the window still fires and
`combine_videos` is invoked on an empty list of video paths. -/
theorem combine_videos_called_on_empty_batch :
    (runLoop "" [("w1", false), ("w2", false), ("w3", false), ("w4", false), ("w5", false),
        ("w6", false), ("w7", false), ("w8", false), ("w9", false), ("w10", false)]
        ⟨10, [], []⟩).flushes.map (fun f => f.1) = [[]] := by
  rfl

/-- C3 amended: when the batch flush fires at the end of a 10-word window
that started with an empty batch, the flushed list consists of the
successful words' paths and is non-empty precisely when at least one word
of the window succeeded; if every word fails, `combine_videos` is invoked
on an empty list. -/
theorem batch_flush_nonempty_iff_some_success (cwd : String) (ps : List (String × Bool))
    (c0 : Nat) (fl0 : List (List String × String))
    (hlen : ps.length = 10) (hc : c0 % 10 = 0) :
    (runLoop cwd ps ⟨c0, [], fl0⟩).flushes
      = fl0 ++ [(successPaths cwd c0 ps, flushName cwd (c0 + 10))] ∧
    (successPaths cwd c0 ps ≠ [] ↔ ∃ p ∈ ps, p.2 = true) := by
  constructor
  · rw [runLoop_ten cwd ps ⟨c0, [], fl0⟩ hlen hc]
    simp
  · rw [ne_eq, successPaths_eq_nil_iff]
    constructor
    · intro h
      by_contra hn
      push_neg at hn
      exact h (fun p hp => by
        have := hn p hp
        cases hb : p.2
        · rfl
        · exact absurd hb this)
    · rintro ⟨p, hp, hb⟩ hall
      rw [hall p hp] at hb
      exact Bool.false_ne_true hb

/-- Witness for the amended C3: the all-fail window flushes the empty
batch, and indeed no word of it succeeded. -/
theorem batch_flush_nonempty_iff_some_success_witness :
    (([("w1", false), ("w2", false), ("w3", false), ("w4", false), ("w5", false),
       ("w6", false), ("w7", false), ("w8", false), ("w9", false), ("w10", false)]
       : List (String × Bool)).length = 10) ∧
    ((runLoop "" [("w1", false), ("w2", false), ("w3", false), ("w4", false), ("w5", false),
        ("w6", false), ("w7", false), ("w8", false), ("w9", false), ("w10", false)]
        ⟨10, [], []⟩).flushes
      = [] ++ [(successPaths "" 10
                  [("w1", false), ("w2", false), ("w3", false), ("w4", false), ("w5", false),
                   ("w6", false), ("w7", false), ("w8", false), ("w9", false), ("w10", false)],
                flushName "" (10 + 10))] ∧
     (successPaths "" 10
        [("w1", false), ("w2", false), ("w3", false), ("w4", false), ("w5", false),
         ("w6", false), ("w7", false), ("w8", false), ("w9", false), ("w10", false)] ≠ []
       ↔ ∃ p ∈ ([("w1", false), ("w2", false), ("w3", false), ("w4", false), ("w5", false),
                 ("w6", false), ("w7", false), ("w8", false), ("w9", false), ("w10", false)]
                 : List (String × Bool)), p.2 = true)) :=
  ⟨rfl, batch_flush_nonempty_iff_some_success "" _ 10 [] rfl rfl⟩

/-- Witness for the amended C1 at the three-clip input. -/
theorem combine_mp3s_trailing_silence_witness :
    ([1000, 2000, 3000] : List Nat) ≠ [] ∧
    (combine_mp3s [1000, 2000, 3000] 2000
        = ([1000, 2000, 3000] : List Nat).flatMap (fun d => [Chunk.clip d, Chunk.silence 2000]) ∧
     audioDuration (combine_mp3s [1000, 2000, 3000] 2000)
        = ([1000, 2000, 3000] : List Nat).sum + 2000 * ([1000, 2000, 3000] : List Nat).length) :=
  ⟨by decide, combine_mp3s_trailing_silence [1000, 2000, 3000] (by decide)⟩

/-! ### String and filesystem helper lemmas -/

theorem string_append_right_inj (s a b : String) (h : a ≠ b) : s ++ a ≠ s ++ b := by
  intro he
  apply h
  have hd : (s ++ a).data = (s ++ b).data := by rw [he]
  simp [String.data_append] at hd
  exact String.ext hd

theorem cache_name_ne (cwd : String) (a b : String) (h : a ≠ b) :
    cache_dir cwd ++ a ≠ cache_dir cwd ++ b :=
  string_append_right_inj (cache_dir cwd) a b h

theorem insertFile_of_not_mem (f : String) (fs : List String) (h : f ∉ fs) :
    insertFile f fs = fs ++ [f] := by
  simp [insertFile, h]

theorem dictGetStr_setField_self_str (fields : List (String × JsonValue)) (k s : String) :
    dictGetStr (setField fields k (JsonValue.str s)) k = Except.ok s := by
  simp [dictGetStr, getField_setField_self]

theorem dictGetStr_setField_ne (fields : List (String × JsonValue)) (k k2 : String)
    (v : JsonValue) (h : k2 ≠ k) :
    dictGetStr (setField fields k v) k2 = dictGetStr fields k2 := by
  simp [dictGetStr, getField_setField_ne fields k k2 v h]

/-! ### Claim C6 -/

/-- C6: when `generate_word_info` returns the failure sentinel (its `try`
body failed), `generate_video_for_word` returns `False` without raising,
with the world untouched: no image, slide, rasterization, audio or video
stage runs (no event is emitted) and no file is created or removed, so no
video is produced and previously produced outputs are unchanged.  At the
loop level, a step with success flag `False` never appends the word's
video path to the batch; the loop then continues with the incremented
counter. -/
theorem word_failure_skips_word (cwd word t : String) (parsed : Option JsonValue)
    (imageHandle wordDur defDur exDur sofficeExit pdftoppmExit : Nat)
    (output_path : String) (log : List String) (w : World) (st : LoopState)
    (h : tryBody word parsed = none) :
    generate_video_for_word cwd word t parsed imageHandle wordDur defDur exDur
        sofficeExit pdftoppmExit output_path log w
      = Except.ok (false, log ++ [word ++ " " ++ t], w) ∧
    loopStep cwd st (word, false)
      = (if (st.count + 1) % 10 = 0 then
           ⟨st.count + 1, [], st.flushes ++ [(st.video_paths, flushName cwd (st.count + 1))]⟩
         else ⟨st.count + 1, st.video_paths, st.flushes⟩) := by
  constructor
  · simp [generate_video_for_word, generate_word_info, h]
  · by_cases hm : (st.count + 1) % 10 = 0 <;> simp [loopStep, hm]

/-- Witness for C6 at a concrete failed word. -/
theorem word_failure_skips_word_witness :
    tryBody "apple" none = none ∧
    (generate_video_for_word "" "apple" "oops" none 7 1000 1100 1200 0 0
        (videoPathFor "" 10 "apple") [] ⟨[], []⟩
      = Except.ok (false, [] ++ ["apple" ++ " " ++ "oops"], ⟨[], []⟩) ∧
     loopStep "" ⟨10, [], []⟩ ("apple", false)
      = (if (10 + 1) % 10 = 0 then
           ⟨10 + 1, [], [] ++ [([], flushName "" (10 + 1))]⟩
         else ⟨10 + 1, [], []⟩)) :=
  ⟨rfl, word_failure_skips_word "" "apple" "oops" none 7 1000 1100 1200 0 0
    (videoPathFor "" 10 "apple") [] ⟨[], []⟩ ⟨10, [], []⟩ rfl⟩

/-! ### Claim C8 -/

/-- C8: for every word-info dict whose `word`, `definition` and `example`
entries are strings, and every image, `generate_slide` saves a
presentation containing exactly one slide to the fixed scratch filename
`cache_dir ++ "temp.pptx"` and returns that path; the path expression is a
constant, independent of the word-info contents. -/
theorem generate_slide_one_slide_fixed_path (cwd : String)
    (fields : List (String × JsonValue)) (image_data : Nat) (w : World)
    (wv dv exv : String)
    (hw : dictGetStr fields "word" = Except.ok wv)
    (hd : dictGetStr fields "definition" = Except.ok dv)
    (he : dictGetStr fields "example" = Except.ok exv) :
    generate_slide cwd fields image_data w
      = Except.ok (cache_dir cwd ++ "temp.pptx",
          ⟨insertFile (cache_dir cwd ++ "temp.pptx") w.fs,
           w.events ++ [Event.slideSaved (buildSlidePresentation wv dv exv image_data)
                          (cache_dir cwd ++ "temp.pptx")]⟩) ∧
    (buildSlidePresentation wv dv exv image_data).slides.length = 1 := by
  constructor
  · simp [generate_slide, hw, hd, he, Bind.bind, Except.bind]
  · rfl

/-- Witness for C8 at a concrete word-info dict. -/
theorem generate_slide_one_slide_fixed_path_witness :
    dictGetStr [("word", JsonValue.str "apple"), ("definition", JsonValue.str "A red fruit."),
                ("example", JsonValue.str "I ate an apple.")] "word" = Except.ok "apple" ∧
    (generate_slide "" [("word", JsonValue.str "apple"),
        ("definition", JsonValue.str "A red fruit."),
        ("example", JsonValue.str "I ate an apple.")] 7 ⟨[], []⟩
      = Except.ok (cache_dir "" ++ "temp.pptx",
          ⟨insertFile (cache_dir "" ++ "temp.pptx") [],
           [] ++ [Event.slideSaved
                    (buildSlidePresentation "apple" "A red fruit." "I ate an apple." 7)
                    (cache_dir "" ++ "temp.pptx")]⟩) ∧
     (buildSlidePresentation "apple" "A red fruit." "I ate an apple." 7).slides.length = 1) :=
  ⟨rfl, generate_slide_one_slide_fixed_path "" _ 7 ⟨[], []⟩ "apple" "A red fruit."
    "I ate an apple." rfl rfl rfl⟩

/-- Successful rasterization: with both subprocesses exiting 0 and the two
intermediate names absent from the filesystem, `convert_slide_to_image`
creates the PNG, deletes the PDF and records the two commands in order. -/
theorem convert_slide_ok (cwd slide_path : String) (w : World)
    (hpdf : cache_dir cwd ++ "temp.pdf" ∉ w.fs)
    (hpng : cache_dir cwd ++ "temp.png" ∉ w.fs) :
    convert_slide_to_image cwd slide_path 0 0 w
      = Except.ok (cache_dir cwd ++ "temp.png",
          ⟨w.fs ++ [cache_dir cwd ++ "temp.png"],
           w.events ++ [Event.ranSoffice slide_path,
                        Event.ranPdftoppm (cache_dir cwd ++ "temp.pdf"),
                        Event.removed (cache_dir cwd ++ "temp.pdf")]⟩) := by
  have hne : cache_dir cwd ++ "temp.pdf" ≠ cache_dir cwd ++ "temp.png" :=
    cache_name_ne cwd "temp.pdf" "temp.png" (by decide)
  have hi1 : insertFile (cache_dir cwd ++ "temp.pdf") w.fs
      = w.fs ++ [cache_dir cwd ++ "temp.pdf"] := insertFile_of_not_mem _ _ hpdf
  have hm2 : cache_dir cwd ++ "temp.png" ∉ w.fs ++ [cache_dir cwd ++ "temp.pdf"] := by
    simp [hpng, Ne.symm hne]
  have hi2 : insertFile (cache_dir cwd ++ "temp.png")
        (w.fs ++ [cache_dir cwd ++ "temp.pdf"])
      = w.fs ++ [cache_dir cwd ++ "temp.pdf"] ++ [cache_dir cwd ++ "temp.png"] :=
    insertFile_of_not_mem _ _ hm2
  have her : (w.fs ++ [cache_dir cwd ++ "temp.pdf", cache_dir cwd ++ "temp.png"]).erase
        (cache_dir cwd ++ "temp.pdf")
      = w.fs ++ [cache_dir cwd ++ "temp.png"] := by
    rw [List.erase_append_right _ hpdf]
    simp
  simp [convert_slide_to_image, subprocess_run, os_remove, Bind.bind, Except.bind,
        hi1, hi2, her]

/-! ### Claim C9 -/

/-- C9: `convert_slide_to_image` runs the LibreOffice converter and then
the `pdftoppm` rasterizer, in that order; when both exit with status 0 it
deletes the intermediate `temp.pdf` before returning (the PDF is absent
from the resulting filesystem) and returns the rasterized image path
`cache_dir ++ "temp.png"`.  When either subprocess exits non-zero,
`check=True` raises `CalledProcessError`, which the function does not
handle, so the word's pipeline aborts with the exception. -/
theorem convert_slide_to_image_spec (cwd slide_path : String) (e1 e2 : Nat) (w : World)
    (hpdf : cache_dir cwd ++ "temp.pdf" ∉ w.fs)
    (hpng : cache_dir cwd ++ "temp.png" ∉ w.fs) :
    (e1 = 0 → e2 = 0 →
      convert_slide_to_image cwd slide_path e1 e2 w
        = Except.ok (cache_dir cwd ++ "temp.png",
            ⟨w.fs ++ [cache_dir cwd ++ "temp.png"],
             w.events ++ [Event.ranSoffice slide_path,
                          Event.ranPdftoppm (cache_dir cwd ++ "temp.pdf"),
                          Event.removed (cache_dir cwd ++ "temp.pdf")]⟩)
      ∧ cache_dir cwd ++ "temp.pdf" ∉ w.fs ++ [cache_dir cwd ++ "temp.png"]) ∧
    (e1 ≠ 0 →
      convert_slide_to_image cwd slide_path e1 e2 w = Except.error "CalledProcessError") ∧
    (e2 ≠ 0 →
      convert_slide_to_image cwd slide_path e1 e2 w = Except.error "CalledProcessError") := by
  have hne : cache_dir cwd ++ "temp.pdf" ≠ cache_dir cwd ++ "temp.png" :=
    cache_name_ne cwd "temp.pdf" "temp.png" (by decide)
  refine ⟨?_, ?_, ?_⟩
  · intro h1 h2
    subst h1; subst h2
    constructor
    · exact convert_slide_ok cwd slide_path w hpdf hpng
    · simp [hpdf, hne]
  · intro h1
    simp [convert_slide_to_image, subprocess_run, os_remove, Bind.bind, Except.bind, h1]
  · intro h2
    by_cases h1 : e1 = 0 <;>
      simp [convert_slide_to_image, subprocess_run, os_remove, Bind.bind, Except.bind, h1, h2]

/-- Witness for C9: a concrete successful run and a concrete failing
LibreOffice invocation. -/
theorem convert_slide_to_image_spec_witness :
    (cache_dir "" ++ "temp.pdf" ∉ (⟨[], []⟩ : World).fs) ∧
    ((convert_slide_to_image "" "slide" 0 0 ⟨[], []⟩
        = Except.ok (cache_dir "" ++ "temp.png",
            ⟨[] ++ [cache_dir "" ++ "temp.png"],
             [] ++ [Event.ranSoffice "slide",
                    Event.ranPdftoppm (cache_dir "" ++ "temp.pdf"),
                    Event.removed (cache_dir "" ++ "temp.pdf")]⟩)
      ∧ cache_dir "" ++ "temp.pdf" ∉ ([] : List String) ++ [cache_dir "" ++ "temp.png"]) ∧
     convert_slide_to_image "" "slide" 1 0 ⟨[], []⟩ = Except.error "CalledProcessError") := by
  have h := convert_slide_to_image_spec "" "slide" 0 0 ⟨[], []⟩ (by simp) (by simp)
  have h2 := convert_slide_to_image_spec "" "slide" 1 0 ⟨[], []⟩ (by simp) (by simp)
  exact ⟨by simp, h.1 rfl rfl, h2.2.1 (by decide)⟩

/-! ### Claim C7 -/

/-- C7 counterexample: after a successful full run for the word "apple"
starting from an empty scratch directory, followed by the `combine_videos`
call that consumes the per-word video, the per-word video file is still
present in the cache directory: `combine_videos` deletes none of its
inputs and nothing else removes the per-word video, contradicting the
claim that every per-word scratch artifact (the per-word video file
included) is deleted once consumed by the next stage. -/
theorem per_word_video_not_deleted :
    isOkE (generate_video_for_word "" "apple" "resp"
        (some (JsonValue.obj [("definition", JsonValue.str "d"),
                              ("example", JsonValue.str "e")]))
        7 1000 1100 1200 0 0 (videoPathFor "" 10 "apple") [] ⟨[], []⟩) = true ∧
    videoPathFor "" 10 "apple" ∈
      (combine_videos [videoPathFor "" 10 "apple"]
        (output_dir "" ++ "combined_11-20.mp4")
        (worldAfter (generate_video_for_word "" "apple" "resp"
            (some (JsonValue.obj [("definition", JsonValue.str "d"),
                                  ("example", JsonValue.str "e")]))
            7 1000 1100 1200 0 0 (videoPathFor "" 10 "apple") [] ⟨[], []⟩)
          ⟨[], []⟩)).fs := by
  exact ⟨rfl, by decide⟩

/-- C7 amended: on a successful run (valid word info, both subprocesses
exiting 0), every intermediate per-word scratch artifact — presentation
file, intermediate PDF, rasterized image, the three speech files and the
mixed audio file — is deleted by the time `generate_video_for_word`
returns, but the per-word video file is not: it is the only file the run
adds, it stays in the cache directory, and `combine_videos` does not
remove it either. -/
theorem scratch_cleanup_leaves_video (cwd word t : String)
    (fields : List (String × JsonValue)) (imageHandle wordDur defDur exDur : Nat)
    (output_path : String) (log : List String) (fs0 : List String) (ev0 : List Event)
    (dv exv : String)
    (hd : dictGetStr fields "definition" = Except.ok dv)
    (he : dictGetStr fields "example" = Except.ok exv)
    (hfresh : ∀ f ∈ scratchNames cwd, f ∉ fs0)
    (hout0 : output_path ∉ fs0)
    (houts : output_path ∉ scratchNames cwd) :
    ∃ w1 : World,
      generate_video_for_word cwd word t (some (JsonValue.obj fields)) imageHandle
          wordDur defDur exDur 0 0 output_path log ⟨fs0, ev0⟩
        = Except.ok (true, log, w1) ∧
      w1.fs = fs0 ++ [output_path] ∧
      ∀ f ∈ scratchNames cwd, f ∉ w1.fs := by
  have hcn : ∀ a b : String, a ≠ b → cache_dir cwd ++ a ≠ cache_dir cwd ++ b :=
    fun a b h => cache_name_ne cwd a b h
  have f1 : cache_dir cwd ++ "temp.pptx" ∉ fs0 := hfresh _ (by simp [scratchNames])
  have f2 : cache_dir cwd ++ "temp.pdf" ∉ fs0 := hfresh _ (by simp [scratchNames])
  have f3 : cache_dir cwd ++ "temp.png" ∉ fs0 := hfresh _ (by simp [scratchNames])
  have f4 : cache_dir cwd ++ "word_speech.mp3" ∉ fs0 := hfresh _ (by simp [scratchNames])
  have f5 : cache_dir cwd ++ "word_definition_speech.mp3" ∉ fs0 :=
    hfresh _ (by simp [scratchNames])
  have f6 : cache_dir cwd ++ "word_example_speech.mp3" ∉ fs0 :=
    hfresh _ (by simp [scratchNames])
  have f7 : cache_dir cwd ++ "combined_audio.mp3" ∉ fs0 := hfresh _ (by simp [scratchNames])
  have g1 : output_path ≠ cache_dir cwd ++ "temp.pptx" := by
    intro hx; exact houts (by simp [scratchNames, hx])
  have g3 : output_path ≠ cache_dir cwd ++ "temp.png" := by
    intro hx; exact houts (by simp [scratchNames, hx])
  have g7 : output_path ≠ cache_dir cwd ++ "combined_audio.mp3" := by
    intro hx; exact houts (by simp [scratchNames, hx])
  have hw2 : dictGetStr (setField fields "word" (JsonValue.str word)) "word"
      = Except.ok word := dictGetStr_setField_self_str fields "word" word
  have hd2 : dictGetStr (setField fields "word" (JsonValue.str word)) "definition"
      = Except.ok dv := by
    rw [dictGetStr_setField_ne fields "word" "definition" _ (by decide)]; exact hd
  have he2 : dictGetStr (setField fields "word" (JsonValue.str word)) "example"
      = Except.ok exv := by
    rw [dictGetStr_setField_ne fields "word" "example" _ (by decide)]; exact he
  have s1 : generate_word_info word t (some (JsonValue.obj fields)) log
      = (some (JsonValue.obj (setField fields "word" (JsonValue.str word))), log) := by
    simp [generate_word_info, tryBody]
  have s2 : ∀ w : World,
      generate_image_from_word_info (setField fields "word" (JsonValue.str word))
          imageHandle w
        = Except.ok (imageHandle, ⟨w.fs, w.events ++ [Event.imageGenerated imageHandle]⟩) := by
    intro w
    simp [generate_image_from_word_info, hw2, hd2, he2, Bind.bind, Except.bind]
  have s3 : ∀ w : World,
      generate_slide cwd (setField fields "word" (JsonValue.str word)) imageHandle w
        = Except.ok (cache_dir cwd ++ "temp.pptx",
            ⟨insertFile (cache_dir cwd ++ "temp.pptx") w.fs,
             w.events ++ [Event.slideSaved
               (buildSlidePresentation word dv exv imageHandle)
               (cache_dir cwd ++ "temp.pptx")]⟩) := by
    intro w
    simp [generate_slide, hw2, hd2, he2, Bind.bind, Except.bind]
  have s4 : ∀ w : World,
      convert_slide_to_image cwd (cache_dir cwd ++ "temp.pptx") 0 0 w
        = Except.ok (cache_dir cwd ++ "temp.png",
            ⟨(insertFile (cache_dir cwd ++ "temp.png")
                (insertFile (cache_dir cwd ++ "temp.pdf") w.fs)).erase
              (cache_dir cwd ++ "temp.pdf"),
             w.events ++ [Event.ranSoffice (cache_dir cwd ++ "temp.pptx"),
                          Event.ranPdftoppm (cache_dir cwd ++ "temp.pdf"),
                          Event.removed (cache_dir cwd ++ "temp.pdf")]⟩) := by
    intro w
    simp [convert_slide_to_image, subprocess_run, os_remove, Bind.bind, Except.bind]
  have s5 : ∀ w : World,
      generate_audio_file cwd (setField fields "word" (JsonValue.str word))
          wordDur defDur exDur w
        = Except.ok (cache_dir cwd ++ "combined_audio.mp3",
            ⟨(((insertFile (cache_dir cwd ++ "combined_audio.mp3")
                  (insertFile (cache_dir cwd ++ "word_example_speech.mp3")
                    (insertFile (cache_dir cwd ++ "word_definition_speech.mp3")
                      (insertFile (cache_dir cwd ++ "word_speech.mp3") w.fs)))).erase
                 (cache_dir cwd ++ "word_speech.mp3")).erase
                (cache_dir cwd ++ "word_definition_speech.mp3")).erase
               (cache_dir cwd ++ "word_example_speech.mp3"),
             w.events ++ [Event.tts (cache_dir cwd ++ "word_speech.mp3"),
                          Event.tts (cache_dir cwd ++ "word_definition_speech.mp3"),
                          Event.tts (cache_dir cwd ++ "word_example_speech.mp3"),
                          Event.audioExported (cache_dir cwd ++ "combined_audio.mp3")
                            (combine_mp3s [wordDur, defDur, exDur] 2000),
                          Event.removed (cache_dir cwd ++ "word_speech.mp3"),
                          Event.removed (cache_dir cwd ++ "word_definition_speech.mp3"),
                          Event.removed (cache_dir cwd ++ "word_example_speech.mp3")]⟩) := by
    intro w
    simp [generate_audio_file, tts_call, combine_mp3s_export, os_remove, hw2, hd2, he2,
          Bind.bind, Except.bind]
  have hA : insertFile (cache_dir cwd ++ "temp.pptx") fs0
      = fs0 ++ [cache_dir cwd ++ "temp.pptx"] := insertFile_of_not_mem _ _ f1
  have hB1 : insertFile (cache_dir cwd ++ "temp.pdf") (fs0 ++ [cache_dir cwd ++ "temp.pptx"])
      = fs0 ++ [cache_dir cwd ++ "temp.pptx", cache_dir cwd ++ "temp.pdf"] := by
    rw [insertFile_of_not_mem _ _ (by
      simp [f2, hcn "temp.pdf" "temp.pptx" (by decide)])]
    simp
  have hB2 : insertFile (cache_dir cwd ++ "temp.png")
        (fs0 ++ [cache_dir cwd ++ "temp.pptx", cache_dir cwd ++ "temp.pdf"])
      = fs0 ++ [cache_dir cwd ++ "temp.pptx", cache_dir cwd ++ "temp.pdf",
                cache_dir cwd ++ "temp.png"] := by
    rw [insertFile_of_not_mem _ _ (by
      simp [f3, hcn "temp.png" "temp.pptx" (by decide), hcn "temp.png" "temp.pdf" (by decide)])]
    simp
  have hB3 : (fs0 ++ [cache_dir cwd ++ "temp.pptx", cache_dir cwd ++ "temp.pdf",
                cache_dir cwd ++ "temp.png"]).erase (cache_dir cwd ++ "temp.pdf")
      = fs0 ++ [cache_dir cwd ++ "temp.pptx", cache_dir cwd ++ "temp.png"] := by
    rw [List.erase_append_right _ f2]
    simp [List.erase_cons, hcn "temp.pptx" "temp.pdf" (by decide)]
  have hC1 : insertFile (cache_dir cwd ++ "word_speech.mp3")
        (fs0 ++ [cache_dir cwd ++ "temp.pptx", cache_dir cwd ++ "temp.png"])
      = fs0 ++ [cache_dir cwd ++ "temp.pptx", cache_dir cwd ++ "temp.png",
                cache_dir cwd ++ "word_speech.mp3"] := by
    rw [insertFile_of_not_mem _ _ (by
      simp [f4, hcn "word_speech.mp3" "temp.pptx" (by decide),
            hcn "word_speech.mp3" "temp.png" (by decide)])]
    simp
  have hC2 : insertFile (cache_dir cwd ++ "word_definition_speech.mp3")
        (fs0 ++ [cache_dir cwd ++ "temp.pptx", cache_dir cwd ++ "temp.png",
                 cache_dir cwd ++ "word_speech.mp3"])
      = fs0 ++ [cache_dir cwd ++ "temp.pptx", cache_dir cwd ++ "temp.png",
                cache_dir cwd ++ "word_speech.mp3",
                cache_dir cwd ++ "word_definition_speech.mp3"] := by
    rw [insertFile_of_not_mem _ _ (by
      simp [f5, hcn "word_definition_speech.mp3" "temp.pptx" (by decide),
            hcn "word_definition_speech.mp3" "temp.png" (by decide),
            hcn "word_definition_speech.mp3" "word_speech.mp3" (by decide)])]
    simp
  have hC3 : insertFile (cache_dir cwd ++ "word_example_speech.mp3")
        (fs0 ++ [cache_dir cwd ++ "temp.pptx", cache_dir cwd ++ "temp.png",
                 cache_dir cwd ++ "word_speech.mp3",
                 cache_dir cwd ++ "word_definition_speech.mp3"])
      = fs0 ++ [cache_dir cwd ++ "temp.pptx", cache_dir cwd ++ "temp.png",
                cache_dir cwd ++ "word_speech.mp3",
                cache_dir cwd ++ "word_definition_speech.mp3",
                cache_dir cwd ++ "word_example_speech.mp3"] := by
    rw [insertFile_of_not_mem _ _ (by
      simp [f6, hcn "word_example_speech.mp3" "temp.pptx" (by decide),
            hcn "word_example_speech.mp3" "temp.png" (by decide),
            hcn "word_example_speech.mp3" "word_speech.mp3" (by decide),
            hcn "word_example_speech.mp3" "word_definition_speech.mp3" (by decide)])]
    simp
  have hC4 : insertFile (cache_dir cwd ++ "combined_audio.mp3")
        (fs0 ++ [cache_dir cwd ++ "temp.pptx", cache_dir cwd ++ "temp.png",
                 cache_dir cwd ++ "word_speech.mp3",
                 cache_dir cwd ++ "word_definition_speech.mp3",
                 cache_dir cwd ++ "word_example_speech.mp3"])
      = fs0 ++ [cache_dir cwd ++ "temp.pptx", cache_dir cwd ++ "temp.png",
                cache_dir cwd ++ "word_speech.mp3",
                cache_dir cwd ++ "word_definition_speech.mp3",
                cache_dir cwd ++ "word_example_speech.mp3",
                cache_dir cwd ++ "combined_audio.mp3"] := by
    rw [insertFile_of_not_mem _ _ (by
      simp [f7, hcn "combined_audio.mp3" "temp.pptx" (by decide),
            hcn "combined_audio.mp3" "temp.png" (by decide),
            hcn "combined_audio.mp3" "word_speech.mp3" (by decide),
            hcn "combined_audio.mp3" "word_definition_speech.mp3" (by decide),
            hcn "combined_audio.mp3" "word_example_speech.mp3" (by decide)])]
    simp
  have hC5 : (fs0 ++ [cache_dir cwd ++ "temp.pptx", cache_dir cwd ++ "temp.png",
                cache_dir cwd ++ "word_speech.mp3",
                cache_dir cwd ++ "word_definition_speech.mp3",
                cache_dir cwd ++ "word_example_speech.mp3",
                cache_dir cwd ++ "combined_audio.mp3"]).erase
        (cache_dir cwd ++ "word_speech.mp3")
      = fs0 ++ [cache_dir cwd ++ "temp.pptx", cache_dir cwd ++ "temp.png",
                cache_dir cwd ++ "word_definition_speech.mp3",
                cache_dir cwd ++ "word_example_speech.mp3",
                cache_dir cwd ++ "combined_audio.mp3"] := by
    rw [List.erase_append_right _ f4]
    simp [List.erase_cons, hcn "temp.pptx" "word_speech.mp3" (by decide),
          hcn "temp.png" "word_speech.mp3" (by decide)]
  have hC6 : (fs0 ++ [cache_dir cwd ++ "temp.pptx", cache_dir cwd ++ "temp.png",
                cache_dir cwd ++ "word_definition_speech.mp3",
                cache_dir cwd ++ "word_example_speech.mp3",
                cache_dir cwd ++ "combined_audio.mp3"]).erase
        (cache_dir cwd ++ "word_definition_speech.mp3")
      = fs0 ++ [cache_dir cwd ++ "temp.pptx", cache_dir cwd ++ "temp.png",
                cache_dir cwd ++ "word_example_speech.mp3",
                cache_dir cwd ++ "combined_audio.mp3"] := by
    rw [List.erase_append_right _ f5]
    simp [List.erase_cons, hcn "temp.pptx" "word_definition_speech.mp3" (by decide),
          hcn "temp.png" "word_definition_speech.mp3" (by decide)]
  have hC7 : (fs0 ++ [cache_dir cwd ++ "temp.pptx", cache_dir cwd ++ "temp.png",
                cache_dir cwd ++ "word_example_speech.mp3",
                cache_dir cwd ++ "combined_audio.mp3"]).erase
        (cache_dir cwd ++ "word_example_speech.mp3")
      = fs0 ++ [cache_dir cwd ++ "temp.pptx", cache_dir cwd ++ "temp.png",
                cache_dir cwd ++ "combined_audio.mp3"] := by
    rw [List.erase_append_right _ f6]
    simp [List.erase_cons, hcn "temp.pptx" "word_example_speech.mp3" (by decide),
          hcn "temp.png" "word_example_speech.mp3" (by decide)]
  have hD : insertFile output_path
        (fs0 ++ [cache_dir cwd ++ "temp.pptx", cache_dir cwd ++ "temp.png",
                 cache_dir cwd ++ "combined_audio.mp3"])
      = fs0 ++ [cache_dir cwd ++ "temp.pptx", cache_dir cwd ++ "temp.png",
                cache_dir cwd ++ "combined_audio.mp3", output_path] := by
    rw [insertFile_of_not_mem _ _ (by simp [hout0, g1, g3, g7])]
    simp
  have hE1 : (fs0 ++ [cache_dir cwd ++ "temp.pptx", cache_dir cwd ++ "temp.png",
                cache_dir cwd ++ "combined_audio.mp3", output_path]).erase
        (cache_dir cwd ++ "temp.pptx")
      = fs0 ++ [cache_dir cwd ++ "temp.png", cache_dir cwd ++ "combined_audio.mp3",
                output_path] := by
    rw [List.erase_append_right _ f1]
    simp
  have hE2 : (fs0 ++ [cache_dir cwd ++ "temp.png", cache_dir cwd ++ "combined_audio.mp3",
                output_path]).erase (cache_dir cwd ++ "temp.png")
      = fs0 ++ [cache_dir cwd ++ "combined_audio.mp3", output_path] := by
    rw [List.erase_append_right _ f3]
    simp
  have hE3 : (fs0 ++ [cache_dir cwd ++ "combined_audio.mp3", output_path]).erase
        (cache_dir cwd ++ "combined_audio.mp3")
      = fs0 ++ [output_path] := by
    rw [List.erase_append_right _ f7]
    simp
  refine ⟨⟨fs0 ++ [output_path],
      ev0 ++ [Event.imageGenerated imageHandle,
              Event.slideSaved (buildSlidePresentation word dv exv imageHandle)
                (cache_dir cwd ++ "temp.pptx"),
              Event.ranSoffice (cache_dir cwd ++ "temp.pptx"),
              Event.ranPdftoppm (cache_dir cwd ++ "temp.pdf"),
              Event.removed (cache_dir cwd ++ "temp.pdf"),
              Event.tts (cache_dir cwd ++ "word_speech.mp3"),
              Event.tts (cache_dir cwd ++ "word_definition_speech.mp3"),
              Event.tts (cache_dir cwd ++ "word_example_speech.mp3"),
              Event.audioExported (cache_dir cwd ++ "combined_audio.mp3")
                (combine_mp3s [wordDur, defDur, exDur] 2000),
              Event.removed (cache_dir cwd ++ "word_speech.mp3"),
              Event.removed (cache_dir cwd ++ "word_definition_speech.mp3"),
              Event.removed (cache_dir cwd ++ "word_example_speech.mp3"),
              Event.videoWritten output_path (cache_dir cwd ++ "temp.png")
                (cache_dir cwd ++ "combined_audio.mp3"),
              Event.removed (cache_dir cwd ++ "temp.pptx"),
              Event.removed (cache_dir cwd ++ "temp.png"),
              Event.removed (cache_dir cwd ++ "combined_audio.mp3")]⟩,
    ?_, rfl, ?_⟩
  · simp only [generate_video_for_word, s1]
    simp only [s2, s3, s4, s5, generate_video_file, os_remove,
               Bind.bind, Except.bind, hA, hB1, hB2, hB3, hC1, hC2, hC3, hC4, hC5, hC6,
               hC7, hD, hE1, hE2, hE3]
    simp
  · intro f hf
    simp only [List.mem_append, List.mem_singleton]
    rintro (hin | hout)
    · exact hfresh f hf hin
    · exact houts (hout ▸ hf)

/-- Witness for the amended C7: a concrete successful run from an empty
scratch directory leaves exactly the per-word video behind. -/
theorem scratch_cleanup_leaves_video_witness :
    dictGetStr [("definition", JsonValue.str "d"), ("example", JsonValue.str "e")]
        "definition" = Except.ok "d" ∧
    (∀ f ∈ scratchNames "", f ∉ ([] : List String)) ∧
    videoPathFor "" 10 "apple" ∉ scratchNames "" ∧
    (∃ w1 : World,
      generate_video_for_word "" "apple" "resp"
          (some (JsonValue.obj [("definition", JsonValue.str "d"),
                                ("example", JsonValue.str "e")]))
          7 1000 1100 1200 0 0 (videoPathFor "" 10 "apple") [] ⟨[], []⟩
        = Except.ok (true, [], w1) ∧
      w1.fs = [] ++ [videoPathFor "" 10 "apple"] ∧
      ∀ f ∈ scratchNames "", f ∉ w1.fs) := by
  refine ⟨rfl, by simp, by decide, ?_⟩
  exact scratch_cleanup_leaves_video "" "apple" "resp"
    [("definition", JsonValue.str "d"), ("example", JsonValue.str "e")]
    7 1000 1100 1200 (videoPathFor "" 10 "apple") [] [] [] "d" "e"
    rfl rfl (by simp) (by simp) (by decide)

end WordVideo
